import Mathlib

/-!
Shallow embedding of the `doc_assistant_new` repository fragment:
  * `src/ai_services/voice_transcription/app.py` — a Flask stub with two
    static routes (`/health`, `/`) and a port read from the environment;
  * `src/ai_services/pre_diagnosis_summary/pre_diagnosis_summary_service.py`
    — a module whose body is only comments (it defines no names);
  * its legacy test file, which imports `PreDiagnosisSummaryService`.
-/

namespace DocAssistant

/-- JSON values as produced by Flask's `jsonify`. -/
inductive Json where
  | str (s : String)
  | num (n : Int)
  | arr (xs : List Json)
  | obj (fields : List (String × Json))
  deriving Repr

/-- Look up a key in a JSON object; `none` on non-objects or missing keys. -/
def Json.lookup (j : Json) (key : String) : Option Json :=
  match j with
  | .obj fields => (fields.find? (fun kv => kv.1 == key)).map (fun kv => kv.2)
  | _ => none

/-- An HTTP response: status code and JSON body.  Flask's `jsonify` produces
status 200 when the handler returns the jsonified payload directly. -/
structure Response where
  status : Nat
  body : Json
  deriving Repr

/-- Handler endpoint names, as registered by the `@app.route` decorators in
`app.py` (lines 16 and 24). -/
inductive HandlerId where
  | health_check
  | root
  deriving Repr, DecidableEq

/-- One entry of the Flask route table: URL rule, allowed methods, endpoint. -/
structure Route where
  path : String
  methods : List String
  handler : HandlerId
  deriving Repr

/-- The module-level state of the voice_transcription process.  The only
module-level object the handlers could reach is the Flask `app` with its
route table; nothing else mutable exists at module scope in `app.py`. -/
structure ServerState where
  routes : List Route

/-- `app.py` lines 16-22:
`health_check` returns `jsonify({'status': 'healthy',
'service': 'voice_transcription', 'version': '1.0.0'})`.
It reads no state and writes no state, so the state passes through. -/
def health_check (s : ServerState) : Response × ServerState :=
  ({ status := 200,
     body := Json.obj
       [("status", Json.str "healthy"),
        ("service", Json.str "voice_transcription"),
        ("version", Json.str "1.0.0")] }, s)

/-- `app.py` lines 24-30:
`root` returns `jsonify({'message': 'Voice Transcription Service',
'status': 'running', 'endpoints': ['/health']})`. -/
def root (s : ServerState) : Response × ServerState :=
  ({ status := 200,
     body := Json.obj
       [("message", Json.str "Voice Transcription Service"),
        ("status", Json.str "running"),
        ("endpoints", Json.arr [Json.str "/health"])] }, s)

/-- Run the handler registered under an endpoint name. -/
def runHandler (h : HandlerId) (s : ServerState) : Response × ServerState :=
  match h with
  | .health_check => health_check s
  | .root => root s

/-- The route table built by the two `@app.route` decorators in `app.py`:
`/health` with `methods=['GET']`, then `/` with `methods=['GET']`. -/
def appRoutes : List Route :=
  [{ path := "/health", methods := ["GET"], handler := .health_check },
   { path := "/", methods := ["GET"], handler := .root }]

/-- The state of the process right after module initialisation. -/
def initialState : ServerState := { routes := appRoutes }

/-- An incoming HTTP request, as far as this code inspects it. -/
structure Request where
  method : String
  path : String

/-- Outcome of routing one request: a handler response; a HEAD answer
(Werkzeug invokes the GET handler and strips the body, leaving only the
status); an automatic OPTIONS answer (Flask replies 200 with the allowed
methods, no handler runs); a 405 method rejection; or a 404 for an
unregistered path. -/
inductive DispatchResult where
  | ok (r : Response)
  | headOk (status : Nat)
  | optionsOk (allow : List String)
  | methodNotAllowed
  | notFound
  deriving Repr

/-- The methods a rule actually accepts: the decorator's declared list,
plus HEAD (added by Werkzeug whenever GET is declared) and OPTIONS (added
by Flask's automatic OPTIONS handling). -/
def effectiveMethods (r : Route) : List String :=
  r.methods
    ++ (if "GET" ∈ r.methods ∧ "HEAD" ∉ r.methods then ["HEAD"] else [])
    ++ (if "OPTIONS" ∉ r.methods then ["OPTIONS"] else [])

/-- Route one request: find the rule matching the path.  A declared method
invokes the handler; HEAD on a GET rule invokes the handler and strips the
body (Werkzeug); OPTIONS is answered automatically by the framework with
the allowed methods; anything else is rejected without invoking any
handler. -/
def dispatch (s : ServerState) (req : Request) : DispatchResult × ServerState :=
  match s.routes.find? (fun r => r.path == req.path) with
  | none => (.notFound, s)
  | some r =>
    if req.method ∈ r.methods then
      let (resp, s') := runHandler r.handler s
      (.ok resp, s')
    else if req.method = "HEAD" ∧ "GET" ∈ r.methods then
      let (resp, s') := runHandler r.handler s
      (.headOk resp.status, s')
    else if req.method = "OPTIONS" then
      (.optionsOk (effectiveMethods r), s)
    else
      (.methodNotAllowed, s)

/-- Serve a sequence of requests, threading the process state. -/
def runRequests (s : ServerState) : List Request → List DispatchResult × ServerState
  | [] => ([], s)
  | req :: rest =>
    let (res, s') := dispatch s req
    let (results, s'') := runRequests s' rest
    (res :: results, s'')

/-- The process state after serving a sequence of requests. -/
def stateAfter (s : ServerState) (reqs : List Request) : ServerState :=
  (runRequests s reqs).2

/- Helper lemmas: no handler and no dispatch step changes the state. -/

theorem runHandler_state (h : HandlerId) (s : ServerState) :
    (runHandler h s).2 = s := by
  cases h <;> rfl

theorem dispatch_state (s : ServerState) (req : Request) :
    (dispatch s req).2 = s := by
  unfold dispatch
  cases hf : s.routes.find? (fun r => r.path == req.path) with
  | none => rfl
  | some r =>
    by_cases h1 : req.method ∈ r.methods
    · simp [h1, runHandler_state]
    · by_cases h2 : req.method = "HEAD" ∧ "GET" ∈ r.methods
      · have hh : "HEAD" ∉ r.methods := fun hmem => h1 (h2.1 ▸ hmem)
        simp [h2, hh, runHandler_state]
      · by_cases h3 : req.method = "OPTIONS"
        · have ho : "OPTIONS" ∉ r.methods := fun hmem => h1 (h3 ▸ hmem)
          simp [h3, ho]
        · simp [h1, h2, h3]

theorem stateAfter_eq (s : ServerState) (reqs : List Request) :
    stateAfter s reqs = s := by
  induction reqs generalizing s with
  | nil => rfl
  | cons req rest ih =>
    unfold stateAfter runRequests
    have hd := dispatch_state s req
    simp only [hd]
    exact ih s

/- Startup, `app.py` lines 32-34:
`port = int(os.environ.get('PORT', 9001))` then
`app.run(host='0.0.0.0', port=port, debug=True)`.
Python's `int(str)` strips surrounding whitespace, allows one sign, then
decimal digits with single underscores between digits; anything else raises
`ValueError`, modelled as `none`. -/

/-- Digits continuing a run already begun: digits, with a single underscore
allowed only between two digits. -/
def pyDigitsGo (acc : Nat) : List Char → Option Nat
  | [] => some acc
  | c :: rest =>
    if c.isDigit then pyDigitsGo (acc * 10 + (c.toNat - 48)) rest
    else if c = '_' then
      match rest with
      | [] => none
      | c2 :: rest2 =>
        if c2.isDigit then pyDigitsGo (acc * 10 + (c2.toNat - 48)) rest2
        else none
    else none

/-- A nonempty digit run (first character must be a digit). -/
def pyDigits : List Char → Option Nat
  | [] => none
  | c :: rest => if c.isDigit then pyDigitsGo (c.toNat - 48) rest else none

/-- Python `int(s)` for a `str` argument in base 10. -/
def pyInt (s : String) : Option Int :=
  let core :=
    ((s.toList.dropWhile Char.isWhitespace).reverse.dropWhile
      Char.isWhitespace).reverse
  match core with
  | '+' :: rest => (pyDigits rest).map Int.ofNat
  | '-' :: rest => (pyDigits rest).map (fun n => -(n : Int))
  | rest => (pyDigits rest).map Int.ofNat

/-- `app.py` line 33: the port the process will use.  `os.environ.get`
returns the default `9001` when `PORT` is unset; otherwise the variable's
string value goes through `int`.  `none` means startup raises before any
socket is bound. -/
def startPort (envPORT : Option String) : Option Int :=
  match envPORT with
  | none => some 9001
  | some v => pyInt v

/-- The listener configuration passed to `app.run` in `app.py` line 34. -/
structure ListenConfig where
  host : String
  port : Int
  debug : Bool
  deriving Repr

/-- `app.py` lines 32-34: compute the port, then start the listener on
`0.0.0.0` with `debug=True`.  `none` when `int` raised. -/
def mainStart (envPORT : Option String) : Option ListenConfig :=
  (startPort envPORT).map (fun p => { host := "0.0.0.0", port := p, debug := true })

/- `pre_diagnosis_summary_service.py`: the module body is comments only
(lines 1-11), so the module defines no top-level names. -/

/-- The top-level names defined by `pre_diagnosis_summary_service.py`. -/
def preDiagnosisSummaryModuleNames : List String := []

/-- Python `from module import name`: the named attribute if the module
defines it, otherwise an `ImportError`. -/
def importFrom (moduleNames : List String) (name : String) : Except String String :=
  if name ∈ moduleNames then Except.ok name
  else Except.error ("ImportError: cannot import name " ++ name)

/-- Line 2 of `tests/test_pre_diagnosis_summary_service.py`:
`from ...pre_diagnosis_summary_service import PreDiagnosisSummaryService`. -/
def testFileImport : Except String String :=
  importFrom preDiagnosisSummaryModuleNames "PreDiagnosisSummaryService"

/- Claim theorems. -/

/-- C1: for every GET request to `/health` — from any reachable server
state — the `health_check` handler answers with status 200 and the fixed
JSON object with status "healthy", service "voice_transcription" and
version "1.0.0". -/
theorem c1_health_response :
    (∀ s : ServerState, (health_check s).1 =
      Response.mk 200 (Json.obj
        [("status", Json.str "healthy"),
         ("service", Json.str "voice_transcription"),
         ("version", Json.str "1.0.0")])) ∧
    ∀ prior : List Request,
      (dispatch (stateAfter initialState prior)
          { method := "GET", path := "/health" }).1 =
        DispatchResult.ok (Response.mk 200 (Json.obj
          [("status", Json.str "healthy"),
           ("service", Json.str "voice_transcription"),
           ("version", Json.str "1.0.0")])) := by
  refine ⟨fun s => rfl, fun prior => ?_⟩
  rw [stateAfter_eq]
  rfl

/-- C2: for every GET request to `/` — from any reachable server state —
the `root` handler answers with status 200 and the fixed JSON object with
message "Voice Transcription Service", status "running" and endpoints
exactly the one-element list containing "/health". -/
theorem c2_root_response :
    (∀ s : ServerState, (root s).1 =
      Response.mk 200 (Json.obj
        [("message", Json.str "Voice Transcription Service"),
         ("status", Json.str "running"),
         ("endpoints", Json.arr [Json.str "/health"])])) ∧
    ∀ prior : List Request,
      (dispatch (stateAfter initialState prior)
          { method := "GET", path := "/" }).1 =
        DispatchResult.ok (Response.mk 200 (Json.obj
          [("message", Json.str "Voice Transcription Service"),
           ("status", Json.str "running"),
           ("endpoints", Json.arr [Json.str "/health"])])) := by
  refine ⟨fun s => rfl, fun prior => ?_⟩
  rw [stateAfter_eq]
  rfl

/-- C3: the listening port comes from the single variable `PORT`: unset
gives 9001, and any value `int` accepts gives that number as the port. -/
theorem c3_port_from_env :
    mainStart none = some { host := "0.0.0.0", port := 9001, debug := true } ∧
    ∀ v n, pyInt v = some n →
      mainStart (some v) =
        some { host := "0.0.0.0", port := n, debug := true } := by
  refine ⟨rfl, fun v n h => ?_⟩
  simp [mainStart, startPort, h]

/-- Witness for C3 at the spec's example `PORT=8080`. -/
theorem c3_port_from_env_witness :
    pyInt "8080" = some 8080 ∧
    mainStart (some "8080") =
      some { host := "0.0.0.0", port := 8080, debug := true } :=
  ⟨by decide, c3_port_from_env.2 "8080" 8080 (by decide)⟩

/-- C4: the handlers are deterministic and stateless: whatever requests
were served before, the same request gets the same answer, and the server
state never changes after process start. -/
theorem c4_deterministic_stateless :
    (∀ prior1 prior2 : List Request, ∀ req : Request,
      (dispatch (stateAfter initialState prior1) req).1 =
      (dispatch (stateAfter initialState prior2) req).1) ∧
    ∀ prior : List Request, stateAfter initialState prior = initialState := by
  refine ⟨fun prior1 prior2 req => ?_, fun prior => stateAfter_eq _ _⟩
  rw [stateAfter_eq, stateAfter_eq]

/-- C5: `pre_diagnosis_summary_service.py` defines neither the class
`PreDiagnosisSummaryService` nor the three methods the legacy test file
exercises, so the test file's import raises `ImportError` instead of
yielding the class. -/
theorem c5_module_emptied :
    "PreDiagnosisSummaryService" ∉ preDiagnosisSummaryModuleNames ∧
    "process_questionnaire_data" ∉ preDiagnosisSummaryModuleNames ∧
    "extract_key_medical_history" ∉ preDiagnosisSummaryModuleNames ∧
    "generate_summary" ∉ preDiagnosisSummaryModuleNames ∧
    testFileImport =
      Except.error "ImportError: cannot import name PreDiagnosisSummaryService" := by
  refine ⟨?_, ?_, ?_, ?_, rfl⟩ <;> simp [preDiagnosisSummaryModuleNames]

/-- C6: the route table registers exactly `/health` and `/`; any request
to any other path has no handler and is answered not-found. -/
theorem c6_exactly_two_routes :
    appRoutes.map Route.path = ["/health", "/"] ∧
    ∀ m p, p ≠ "/health" → p ≠ "/" →
      (dispatch initialState { method := m, path := p }).1 =
        DispatchResult.notFound := by
  refine ⟨rfl, fun m p h1 h2 => ?_⟩
  have e1 : ("/health" == p) = false := beq_eq_false_iff_ne.mpr (Ne.symm h1)
  have e2 : ("/" == p) = false := beq_eq_false_iff_ne.mpr (Ne.symm h2)
  simp [dispatch, initialState, appRoutes, List.find?, e1, e2]

/-- Witness for C6 at the unregistered path `/nope`. -/
theorem c6_exactly_two_routes_witness :
    "/nope" ≠ "/health" ∧ "/nope" ≠ "/" ∧
    (dispatch initialState { method := "GET", path := "/nope" }).1 =
      DispatchResult.notFound :=
  ⟨by decide, by decide,
    c6_exactly_two_routes.2 "GET" "/nope" (by decide) (by decide)⟩

/-- C7: serving a request has no side effect: each handler returns the
server state unchanged, and dispatching any request from any state leaves
that state intact. -/
theorem c7_no_side_effects :
    (∀ s : ServerState, (health_check s).2 = s ∧ (root s).2 = s) ∧
    ∀ s req, (dispatch s req).2 = s :=
  ⟨fun _ => ⟨rfl, rfl⟩, dispatch_state⟩

/-- C8 counterexample: not every non-GET method is rejected.  HEAD — a
non-GET method — reaches the `health_check` handler through Werkzeug's
automatic HEAD support and is answered 200 with the body stripped, and
OPTIONS is answered 200 automatically by Flask; neither yields the method
rejection the claim requires. -/
theorem c8_not_every_non_get_rejected :
    "HEAD" ≠ "GET" ∧ "OPTIONS" ≠ "GET" ∧
    (dispatch initialState { method := "HEAD", path := "/health" }).1 =
        DispatchResult.headOk 200 ∧
    (dispatch initialState { method := "OPTIONS", path := "/" }).1 =
        DispatchResult.optionsOk ["GET", "HEAD", "OPTIONS"] :=
  ⟨by decide, by decide, rfl, rfl⟩

/-- C8 amended: both route decorators declare only GET, but the framework
adds HEAD and OPTIONS to GET rules; a request to `/health` or `/` with any
method other than GET, HEAD or OPTIONS is rejected by the method
restriction with no handler invoked and no 200 payload. -/
theorem c8_declared_get_only :
    (∀ r ∈ appRoutes, r.methods = ["GET"]) ∧
    (∀ r ∈ appRoutes, effectiveMethods r = ["GET", "HEAD", "OPTIONS"]) ∧
    ∀ m, m ≠ "GET" → m ≠ "HEAD" → m ≠ "OPTIONS" →
      (dispatch initialState { method := m, path := "/health" }).1 =
          DispatchResult.methodNotAllowed ∧
      (dispatch initialState { method := m, path := "/" }).1 =
          DispatchResult.methodNotAllowed := by
  refine ⟨fun r hr => ?_, fun r hr => ?_, fun m h1 h2 h3 => ⟨?_, ?_⟩⟩
  · simp [appRoutes] at hr
    rcases hr with h | h <;> rw [h]
  · simp [appRoutes] at hr
    rcases hr with h | h <;> rw [h] <;> rfl
  · simp [dispatch, initialState, appRoutes, List.find?, h1, h2, h3]
  · simp [dispatch, initialState, appRoutes, List.find?, h1, h2, h3]

/-- Witness for the amended C8 at method POST. -/
theorem c8_declared_get_only_witness :
    "POST" ≠ "GET" ∧ "POST" ≠ "HEAD" ∧ "POST" ≠ "OPTIONS" ∧
    (dispatch initialState { method := "POST", path := "/health" }).1 =
        DispatchResult.methodNotAllowed ∧
    (dispatch initialState { method := "POST", path := "/" }).1 =
        DispatchResult.methodNotAllowed :=
  ⟨by decide, by decide, by decide,
    c8_declared_get_only.2.2 "POST" (by decide) (by decide) (by decide)⟩

/-- C9: an invalid `PORT` string makes startup fail at the `int`
conversion before any listener exists; startup succeeds exactly when
`PORT` is unset or a string `int` accepts. -/
theorem c9_invalid_port_fails :
    (∀ v, pyInt v = none → mainStart (some v) = none) ∧
    ∀ env, (mainStart env).isSome ↔
      env = none ∨ ∃ v, env = some v ∧ (pyInt v).isSome := by
  constructor
  · intro v h
    simp [mainStart, startPort, h]
  · intro env
    cases env with
    | none => simp [mainStart, startPort]
    | some v => simp [mainStart, startPort]

/-- Witness for C9 at `PORT=abc`. -/
theorem c9_invalid_port_fails_witness :
    pyInt "abc" = none ∧ mainStart (some "abc") = none :=
  ⟨by decide, c9_invalid_port_fails.1 "abc" (by decide)⟩

/-- C10: the `endpoints` list in the root payload equals the registered
route paths other than `/` itself, namely just `/health`. -/
theorem c10_endpoints_consistent :
    ((root initialState).1.body.lookup "endpoints") =
      some (Json.arr
        (((appRoutes.map Route.path).filter (fun p => p != "/")).map Json.str)) ∧
    ((appRoutes.map Route.path).filter (fun p => p != "/")) = ["/health"] :=
  ⟨rfl, rfl⟩

end DocAssistant
